import Mathlib

/-!
# Screen timeout timer of the watch HAL (`src/hal/pico/app_hal.cpp`)

A shallow embedding of the three-field `ChronosTimer` and of the four places
of `app_hal.cpp` that read or write the global `screenTimer`:

* `my_touchpad_read` (lines 278-300), the touch poll;
* `setTimeout` (lines 307-323) and its caller `onTimeoutChange` (347-351);
* `hal_setup` (lines 685-688), the start-up initialisation;
* the timer block that ends `hal_loop` (lines 744-760).

The notification screen is embedded as well: the table `notifications`
(lines 206-216), `onMessageClick` (438-453) and `setupNotifications` (498-510).

The target is the RP2040, so `unsigned long` and `long` are 32 bits wide.
`unsigned long` values are natural numbers, `long` and `int` values are
integers, and every place where the C++ arithmetic converts or truncates is
written out with an explicit remainder.  Calls into the display library are
recorded as a list of `HalCall`s, in program order.
-/

namespace ChronosWatch

/-! ## Machine integers -/

/-- Conversion of an integer to `unsigned long` (32 bits): the value modulo `2^32`. -/
def toULong (x : Int) : Nat := (x % 4294967296).toNat

/-- Conversion of an integer to `uint8_t`: the value modulo `2^8`. -/
def toUInt8 (x : Int) : Nat := (x % 256).toNat

/-- Two's-complement reduction of an integer to the 32-bit `long` range
`-2^31 .. 2^31 - 1` (what the 32-bit multiply of the target leaves in the
register). -/
def wrapLong (x : Int) : Int := (x + 2147483648) % 4294967296 - 2147483648

/-! ## Data model -/

/-- The `struct ChronosTimer` of lines 166-171: `unsigned long time`,
`long duration = 5000`, `bool active`. -/
structure ChronosTimer where
  time : Nat
  duration : Int
  active : Bool
  deriving DecidableEq, Repr

/-- The global `ChronosTimer screenTimer;` of line 255 before `hal_setup` runs:
static storage is zero-initialised and `duration` takes its default member
initialiser. -/
def screenTimer : ChronosTimer := { time := 0, duration := 5000, active := false }

/-- Calls into the display side made by the code under study:
`screenBrightness(value)` (lines 302-305, which forwards to
`tft.setBrightness`) and `lv_screen_load(ui_home)`. -/
inductive HalCall where
  | screenBrightness (value : Nat)
  | lv_screen_load_ui_home
  deriving DecidableEq, Repr

/-- The `lv_indev_state_t` values written by the touch poll. -/
inductive lv_indev_state_t where
  | LV_INDEV_STATE_RELEASED
  | LV_INDEV_STATE_PRESSED
  deriving DecidableEq, Repr

/-- The part of `lv_indev_data_t` that `my_touchpad_read` writes. -/
structure lv_indev_data_t where
  state : lv_indev_state_t
  point_x : Int
  point_y : Int
  deriving DecidableEq, Repr

/-- What `tft.getTouch(&touchX, &touchY)` hands back: the `touched` flag and
the two `uint16_t` coordinates. -/
structure TouchSample where
  touched : Bool
  touchX : Nat
  touchY : Nat
  deriving DecidableEq, Repr

/-! ## Operations -/

/-- The touch poll `my_touchpad_read` (lines 278-300).  `now` is the value
`millis()` returns inside the touched branch.  The result is the updated
input record and the updated `screenTimer`. -/
def my_touchpad_read (touch : TouchSample) (now : Nat) (data : lv_indev_data_t)
    (s : ChronosTimer) : lv_indev_data_t × ChronosTimer :=
  if !touch.touched then
    ({ data with state := lv_indev_state_t.LV_INDEV_STATE_RELEASED }, s)
  else
    ({ data with state := lv_indev_state_t.LV_INDEV_STATE_PRESSED,
                 point_x := (touch.touchX : Int),
                 point_y := (touch.touchY : Int) },
     { s with time := now, active := true })

/-- The function `setTimeout(int i)` (lines 307-323).  The product
`10000 * i` is an `int` product stored into the `long` field; both are 32 bits
wide.  For `i` below `-214748` the product leaves the `int` range, which C++
leaves undefined; the embedding takes the two's-complement value there, and
no result below depends on that range. -/
def setTimeout (i : Int) (s : ChronosTimer) : ChronosTimer :=
  if i = 4 then
    { s with duration := -1 }
  else if i = 0 then
    { s with duration := 5000, active := true }
  else if i < 4 then
    { s with duration := wrapLong (10000 * i), active := true }
  else
    s

/-- The handler `onTimeoutChange` (lines 347-351): the dropdown selection is
read into a `uint16_t` and passed to `setTimeout`. -/
def onTimeoutChange (selected : Nat) (s : ChronosTimer) : ChronosTimer :=
  setTimeout ((selected % 65536 : Nat) : Int) s

/-- The start-up lines 685-688 of `hal_setup`: `active = true`,
`time = millis()`, then `setTimeout(0)`. -/
def hal_setup (now : Nat) (s : ChronosTimer) : ChronosTimer :=
  setTimeout 0 { s with active := true, time := now }

/-- The timer block that ends `hal_loop` (lines 744-760).  `slider` is the
value `lv_slider_get_value(ui_brightnessSlider)` returns, `now` the value of
`millis()` in the comparison.  The sum `time + duration` mixes
`unsigned long` and `long`, so it is taken as `unsigned long`.  The result is
the updated `screenTimer` and the display calls made, in order. -/
def hal_loop (slider : Int) (now : Nat) (s : ChronosTimer) :
    ChronosTimer × List HalCall :=
  if s.active then
    let lvl := toUInt8 slider
    if s.duration < 0 then
      ({ s with active := false }, [HalCall.screenBrightness lvl])
    else if toULong ((s.time : Int) + s.duration) < now then
      ({ s with active := false },
       [HalCall.screenBrightness lvl, HalCall.screenBrightness 0,
        HalCall.lv_screen_load_ui_home])
    else
      (s, [HalCall.screenBrightness lvl])
  else
    (s, [])

/-! ## Event sequences -/

/-- One thing that can happen to `screenTimer` while the device runs: a pass
through the timer block of `hal_loop`, a touch poll, or a change of the
timeout dropdown. -/
inductive Event where
  | tick (slider : Int) (now : Nat)
  | poll (touch : TouchSample) (now : Nat) (data : lv_indev_data_t)
  | timeoutChange (selected : Nat)
  deriving DecidableEq, Repr

/-- Whether an event is a change of the timeout dropdown. -/
def Event.isTimeoutChange : Event → Bool
  | Event.timeoutChange _ => true
  | _ => false

/-- Effect of one event on the timer, with the display calls it makes. -/
def step (s : ChronosTimer) : Event → ChronosTimer × List HalCall
  | Event.tick slider now => hal_loop slider now s
  | Event.poll touch now data => ((my_touchpad_read touch now data s).2, [])
  | Event.timeoutChange selected => (onTimeoutChange selected s, [])

/-- Effect of a sequence of events, oldest first: the final timer and all
display calls, in order. -/
def run (s : ChronosTimer) : List Event → ChronosTimer × List HalCall
  | [] => (s, [])
  | e :: es =>
    let r := step s e
    let r2 := run r.1 es
    (r2.1, r.2 ++ r2.2)

/-! ## Comparison test -/

/-- The subtraction-based expiry test `(now - time) mod 2^32 > duration`.
It is not in the code: it is the test the absolute comparison of `hal_loop`
is compared with. -/
def subtractionExpired (now : Nat) (s : ChronosTimer) : Bool :=
  decide (s.duration < ((toULong ((now : Int) - (s.time : Int)) : Nat) : Int))

/-! ## Notifications -/

/-- The `struct Notification` of lines 173-179: `int icon` and three
`const char *` texts. -/
structure Notification where
  icon : Int
  app : String
  time : String
  message : String
  deriving DecidableEq, Repr

/-- The sample table `Notification notifications[10]` of lines 206-216. -/
def notifications : List Notification := [
  { icon := 0xC0, app := "Chronos", time := "10:27",
    message := "Chronos v3.7.5 is live! Enjoy enhanced notifications for finding your watch and viewing activity status, plus more. Upgrade now for an improved experience" },
  { icon := 0x08, app := "Skype", time := "09:30",
    message := "Hey there! Just reminding you about our meeting at 10:00 AM. Please make sure to prepare the presentation slides and gather all necessary documents beforehand. Looking forward to a productive discussion!" },
  { icon := 0x10, app := "Facebook", time := "14:20",
    message := "You've got 3 new friend requests. Check them out now! Don't forget to catch up with your old friends and see what they've been up to lately. It's always nice to reconnect and expand your social circle." },
  { icon := 0x18, app := "Telegram", time := "16:45",
    message := "New message from John: 'Hey, have you seen the latest news?' Let's catch up later today and discuss the latest updates together. It's always interesting to exchange ideas and opinions on current events." },
  { icon := 0x11, app := "Messenger", time := "19:10",
    message := "Sarah sent you a photo. Tap to view it! Sarah has always been good at capturing moments. Let's see what memorable snapshot she has shared this time. It might bring back some fond memories or inspire us for our next adventure." },
  { icon := 0x12, app := "Instagram", time := "11:55",
    message := "Your post got 50 likes! Keep up the good work. Your creativity and unique perspective are truly appreciated by your followers. Let's continue to share meaningful content and inspire others along the way." },
  { icon := 0x13, app := "Weibo", time := "07:30",
    message := "Trending topic: #TravelTuesday. Share your latest adventures! Whether it's a breathtaking landscape, a delicious local dish, or an unforgettable cultural experience, your travel stories never fail to captivate your audience. Let's share another exciting chapter of your journey!" },
  { icon := 0x09, app := "Wechat", time := "22:15",
    message := "New message from Mom: 'Don't forget to buy milk on your way home!' Mom always has our best interests at heart. Let's make sure to pick up the milk and any other groceries she needs. It's a small gesture of appreciation for all her love and care." },
  { icon := 0x0F, app := "Twitter", time := "18:00",
    message := "Breaking news: SpaceX launches its latest satellite into orbit. The advancements in space exploration never cease to amaze us. Let's stay updated on the latest developments and continue to support the incredible work being done in the field of aerospace engineering." },
  { icon := 0x07, app := "Tencent", time := "13:40",
    message := "Your gaming buddy is online. Ready for a match? It's time to put our skills to the test and embark on another thrilling gaming adventure together. Let's strategize, communicate, and emerge victorious as a team!" }
]

/-- The widgets named in `onMessageClick` and `setupNotifications`. -/
inductive UiObj where
  | ui_messageTime
  | ui_messageContent
  | ui_messageIcon
  | ui_messagePanel
  | ui_messageList
  deriving DecidableEq, Repr

/-- Calls into the widget library made by `onMessageClick` and
`setupNotifications`, with the arguments that vary.  The flag is always
`LV_OBJ_FLAG_HIDDEN` and the animation always `LV_ANIM_ON`. -/
inductive UiCall where
  | lv_label_set_text (obj : UiObj) (text : String)
  | setNotificationIcon (obj : UiObj) (icon : Int)
  | lv_obj_scroll_to_y (obj : UiObj) (y : Int)
  | lv_obj_add_flag (obj : UiObj)
  | lv_obj_remove_flag (obj : UiObj)
  | lv_obj_clean (obj : UiObj)
  | addNotificationList (icon : Int) (message : String) (index : Int)
  deriving DecidableEq, Repr

/-- The subscript `notifications[index]`: defined for `index` in `0 .. 9`,
`none` where the C++ access would leave the 10-entry array. -/
def notificationAt (index : Int) : Option Notification :=
  if 0 ≤ index then notifications[index.toNat]? else none

/-- The handler `onMessageClick` (lines 438-453).  `user_data` is the event's
user data read as `intptr_t`; `index %= 10` is the C++ remainder, which
truncates towards zero.  The result is the list of widget calls, or `none`
when a subscript leaves the table. -/
def onMessageClick (user_data : Int) : Option (List UiCall) :=
  let index := Int.tmod user_data 10
  match notificationAt index with
  | none => none
  | some n =>
    some [UiCall.lv_label_set_text UiObj.ui_messageTime n.time,
          UiCall.lv_label_set_text UiObj.ui_messageContent n.message,
          UiCall.setNotificationIcon UiObj.ui_messageIcon n.icon,
          UiCall.lv_obj_scroll_to_y UiObj.ui_messagePanel 0,
          UiCall.lv_obj_add_flag UiObj.ui_messageList,
          UiCall.lv_obj_remove_flag UiObj.ui_messagePanel]

/-- The function `setupNotifications` (lines 498-510): clears the list, adds
one row per `i` in `0 .. 9` carrying `i` as its index, then scrolls and
switches from the message panel to the list. -/
def setupNotifications : Option (List UiCall) :=
  match (List.range 10).mapM (fun i =>
      (notificationAt (i : Int)).map
        (fun n => UiCall.addNotificationList n.icon n.message (i : Int))) with
  | none => none
  | some rows =>
    some ([UiCall.lv_obj_clean UiObj.ui_messageList] ++ rows ++
          [UiCall.lv_obj_scroll_to_y UiObj.ui_messageList 1,
           UiCall.lv_obj_remove_flag UiObj.ui_messageList,
           UiCall.lv_obj_add_flag UiObj.ui_messagePanel])

/-! ## Arithmetic helpers -/

theorem toULong_of_range (x : Int) (h0 : 0 ≤ x) (h1 : x < 4294967296) :
    toULong x = x.toNat := by
  unfold toULong
  rw [Int.emod_eq_of_lt h0 h1]

theorem toULong_lt_iff (x : Int) (now : Nat) (h0 : 0 ≤ x) (h1 : x < 4294967296) :
    toULong x < now ↔ x < (now : Int) := by
  rw [toULong_of_range x h0 h1]
  omega

/-! ## Branches of the timer block -/

theorem hal_loop_inactive (s : ChronosTimer) (slider : Int) (now : Nat)
    (hact : s.active = false) : hal_loop slider now s = (s, []) := by
  simp [hal_loop, hact]

theorem hal_loop_negative (s : ChronosTimer) (slider : Int) (now : Nat)
    (hact : s.active = true) (hdur : s.duration < 0) :
    hal_loop slider now s =
      ({ s with active := false }, [HalCall.screenBrightness (toUInt8 slider)]) := by
  simp [hal_loop, hact, hdur]

theorem hal_loop_expire (s : ChronosTimer) (slider : Int) (now : Nat)
    (hact : s.active = true) (hdur : 0 ≤ s.duration)
    (hfit : (s.time : Int) + s.duration < 4294967296)
    (hlt : (s.time : Int) + s.duration < (now : Int)) :
    hal_loop slider now s =
      ({ s with active := false },
       [HalCall.screenBrightness (toUInt8 slider), HalCall.screenBrightness 0,
        HalCall.lv_screen_load_ui_home]) := by
  have hnn : 0 ≤ (s.time : Int) + s.duration := by omega
  have hu : toULong ((s.time : Int) + s.duration) < now :=
    (toULong_lt_iff _ now hnn hfit).mpr hlt
  have hnneg : ¬ s.duration < 0 := by omega
  simp [hal_loop, hact, hnneg, hu]

theorem hal_loop_keep (s : ChronosTimer) (slider : Int) (now : Nat)
    (hact : s.active = true) (hdur : 0 ≤ s.duration)
    (hfit : (s.time : Int) + s.duration < 4294967296)
    (hge : ¬ ((s.time : Int) + s.duration < (now : Int))) :
    hal_loop slider now s = (s, [HalCall.screenBrightness (toUInt8 slider)]) := by
  have hnn : 0 ≤ (s.time : Int) + s.duration := by omega
  have hu : ¬ toULong ((s.time : Int) + s.duration) < now :=
    fun h => hge ((toULong_lt_iff _ now hnn hfit).mp h)
  have hnneg : ¬ s.duration < 0 := by omega
  simp [hal_loop, hact, hnneg, hu]

theorem my_touchpad_read_touched (x y now : Nat) (data : lv_indev_data_t)
    (s : ChronosTimer) :
    (my_touchpad_read ⟨true, x, y⟩ now data s).2 = { s with time := now, active := true } := by
  simp [my_touchpad_read]

theorem my_touchpad_read_released (x y now : Nat) (data : lv_indev_data_t)
    (s : ChronosTimer) :
    (my_touchpad_read ⟨false, x, y⟩ now data s).2 = s := by
  simp [my_touchpad_read]

theorem my_touchpad_read_duration (touch : TouchSample) (now : Nat)
    (data : lv_indev_data_t) (s : ChronosTimer) :
    (my_touchpad_read touch now data s).2.duration = s.duration := by
  unfold my_touchpad_read
  split <;> rfl

theorem hal_loop_duration (s : ChronosTimer) (slider : Int) (now : Nat) :
    (hal_loop slider now s).1.duration = s.duration := by
  unfold hal_loop
  split
  · simp only []
    split
    · rfl
    · split <;> rfl
  · rfl

theorem run_cons (s : ChronosTimer) (e : Event) (es : List Event) :
    run s (e :: es) = ((run (step s e).1 es).1, (step s e).2 ++ (run (step s e).1 es).2) :=
  rfl

/-! ## The tick decision -/

/-- C1: for an active timer with `duration >= 0` whose deadline
`time + duration` fits in 32 bits, the timer block of `hal_loop` expires
(clears `active`, applies the slider brightness, then brightness 0, then loads
the home screen) exactly when `time + duration < now`; otherwise, and so also
at `now = time + duration`, it returns the timer unchanged (still active) and
its only call re-applies the slider brightness. -/
theorem hal_loop_tick_decision (s : ChronosTimer) (slider : Int) (now : Nat)
    (hact : s.active = true) (hdur : 0 ≤ s.duration)
    (hfit : (s.time : Int) + s.duration < 4294967296) :
    ((hal_loop slider now s).1.active = false ↔ (s.time : Int) + s.duration < (now : Int)) ∧
    ((s.time : Int) + s.duration < (now : Int) →
      hal_loop slider now s =
        ({ s with active := false },
         [HalCall.screenBrightness (toUInt8 slider), HalCall.screenBrightness 0,
          HalCall.lv_screen_load_ui_home])) ∧
    (¬ ((s.time : Int) + s.duration < (now : Int)) →
      hal_loop slider now s = (s, [HalCall.screenBrightness (toUInt8 slider)]) ∧
      (hal_loop slider now s).1.active = true) ∧
    ((s.time : Int) + s.duration = (now : Int) →
      hal_loop slider now s = (s, [HalCall.screenBrightness (toUInt8 slider)])) := by
  by_cases hlt : (s.time : Int) + s.duration < (now : Int)
  · have hres := hal_loop_expire s slider now hact hdur hfit hlt
    refine ⟨?_, fun _ => hres, fun h => absurd hlt h, fun h => ?_⟩
    · rw [hres]; simp [hlt]
    · omega
  · have hres := hal_loop_keep s slider now hact hdur hfit hlt
    refine ⟨?_, fun h => absurd h hlt, fun _ => ⟨hres, ?_⟩, fun _ => hres⟩
    · rw [hres]; simp [hact, hlt]
    · rw [hres]; exact hact

/-- Witness for C1 at `time = 0`, `duration = 5000`, slider 200 and
`now = 5000`, the boundary instant. -/
theorem hal_loop_tick_decision_witness :
    ((hal_loop 200 5000 ⟨0, 5000, true⟩).1.active = false ↔
        ((0 : Nat) : Int) + 5000 < ((5000 : Nat) : Int)) ∧
    hal_loop 200 5000 ⟨0, 5000, true⟩ =
      (⟨0, 5000, true⟩, [HalCall.screenBrightness (toUInt8 200)]) :=
  have h := hal_loop_tick_decision ⟨0, 5000, true⟩ 200 5000 rfl (by decide) (by decide)
  ⟨h.1, h.2.2.2 (by decide)⟩

/-! ## Expiry boundary -/

/-- C2: with timeout `D >= 0` in force and a touch at `t0` (deadline `t0 + D`
within 32 bits), the tick at `t0 + D - 1` keeps the timer alive (only the
slider brightness is re-applied), the tick at `t0 + D + 1` expires it
(slider brightness, brightness 0, home screen), and any further tick makes no
call at all because `active` is now false: the expiry fires once. -/
theorem expiry_boundary (tm t0 D x y : Nat) (a : Bool) (data : lv_indev_data_t)
    (l1 l2 l3 : Int) (now3 : Nat) (hfit : t0 + D < 4294967296) :
    (my_touchpad_read ⟨true, x, y⟩ t0 data ⟨tm, (D : Int), a⟩).2 = ⟨t0, (D : Int), true⟩ ∧
    hal_loop l1 (t0 + D - 1) ⟨t0, (D : Int), true⟩ =
      (⟨t0, (D : Int), true⟩, [HalCall.screenBrightness (toUInt8 l1)]) ∧
    hal_loop l2 (t0 + D + 1) ⟨t0, (D : Int), true⟩ =
      (⟨t0, (D : Int), false⟩,
       [HalCall.screenBrightness (toUInt8 l2), HalCall.screenBrightness 0,
        HalCall.lv_screen_load_ui_home]) ∧
    hal_loop l3 now3 ⟨t0, (D : Int), false⟩ = (⟨t0, (D : Int), false⟩, []) ∧
    run ⟨tm, (D : Int), a⟩
        [Event.poll ⟨true, x, y⟩ t0 data, Event.tick l1 (t0 + D - 1),
         Event.tick l2 (t0 + D + 1), Event.tick l3 now3] =
      (⟨t0, (D : Int), false⟩,
       [HalCall.screenBrightness (toUInt8 l1), HalCall.screenBrightness (toUInt8 l2),
        HalCall.screenBrightness 0, HalCall.lv_screen_load_ui_home]) := by
  have h0 : (my_touchpad_read ⟨true, x, y⟩ t0 data ⟨tm, (D : Int), a⟩).2 =
      ⟨t0, (D : Int), true⟩ := my_touchpad_read_touched x y t0 data _
  have h1 : hal_loop l1 (t0 + D - 1) ⟨t0, (D : Int), true⟩ =
      (⟨t0, (D : Int), true⟩, [HalCall.screenBrightness (toUInt8 l1)]) :=
    hal_loop_keep ⟨t0, (D : Int), true⟩ l1 (t0 + D - 1) rfl
      (by show (0 : Int) ≤ (D : Int); omega)
      (by show (t0 : Int) + (D : Int) < 4294967296; omega)
      (by show ¬ ((t0 : Int) + (D : Int) < ((t0 + D - 1 : Nat) : Int)); omega)
  have h2 : hal_loop l2 (t0 + D + 1) ⟨t0, (D : Int), true⟩ =
      (⟨t0, (D : Int), false⟩,
       [HalCall.screenBrightness (toUInt8 l2), HalCall.screenBrightness 0,
        HalCall.lv_screen_load_ui_home]) :=
    hal_loop_expire ⟨t0, (D : Int), true⟩ l2 (t0 + D + 1) rfl
      (by show (0 : Int) ≤ (D : Int); omega)
      (by show (t0 : Int) + (D : Int) < 4294967296; omega)
      (by show (t0 : Int) + (D : Int) < ((t0 + D + 1 : Nat) : Int); omega)
  have h3 : hal_loop l3 now3 ⟨t0, (D : Int), false⟩ = (⟨t0, (D : Int), false⟩, []) :=
    hal_loop_inactive _ l3 now3 rfl
  refine ⟨h0, h1, h2, h3, ?_⟩
  simp only [run, step, h0, h1, h2, h3, List.append_nil, List.nil_append, List.cons_append,
    List.singleton_append]

/-- Witness for C2: level 1 (`D = 10000`) chosen through `setTimeout`, touch at
`t0 = 1000`. -/
theorem expiry_boundary_witness :
    (setTimeout 1 screenTimer).duration = ((10000 : Nat) : Int) ∧
    hal_loop 200 (1000 + 10000 - 1) ⟨1000, ((10000 : Nat) : Int), true⟩ =
      (⟨1000, ((10000 : Nat) : Int), true⟩, [HalCall.screenBrightness (toUInt8 200)]) ∧
    hal_loop 200 (1000 + 10000 + 1) ⟨1000, ((10000 : Nat) : Int), true⟩ =
      (⟨1000, ((10000 : Nat) : Int), false⟩,
       [HalCall.screenBrightness (toUInt8 200), HalCall.screenBrightness 0,
        HalCall.lv_screen_load_ui_home]) ∧
    hal_loop 200 (1000 + 10000 + 1) ⟨1000, ((10000 : Nat) : Int), false⟩ =
      (⟨1000, ((10000 : Nat) : Int), false⟩, []) :=
  have h := expiry_boundary 0 1000 10000 120 120 false
    ⟨lv_indev_state_t.LV_INDEV_STATE_RELEASED, 0, 0⟩ 200 200 200 (1000 + 10000 + 1)
    (by decide)
  ⟨by decide, h.2.1, h.2.2.1, h.2.2.2.1⟩

/-! ## Level mapping of `setTimeout` -/

/-- C3: whatever the prior timer, `setTimeout(0)` sets `duration = 5000` and
`active = true`; `setTimeout(i)` for `i` in 1, 2, 3 sets
`duration = 10000 * i` and `active = true`; `setTimeout(4)` sets
`duration = -1`, a negative value.  None of them writes `time`. -/
theorem setTimeout_level_mapping (s : ChronosTimer) :
    setTimeout 0 s = { s with duration := 5000, active := true } ∧
    setTimeout 1 s = { s with duration := 10000, active := true } ∧
    setTimeout 2 s = { s with duration := 20000, active := true } ∧
    setTimeout 3 s = { s with duration := 30000, active := true } ∧
    (∀ i : Int, 1 ≤ i → i ≤ 3 →
      (setTimeout i s).duration = 10000 * i ∧ (setTimeout i s).active = true) ∧
    (setTimeout 4 s).duration = -1 ∧ (setTimeout 4 s).duration < 0 := by
  refine ⟨rfl, rfl, rfl, rfl, ?_, rfl, by show ((-1 : Int) < 0); decide⟩
  intro i h1 h3
  have hi : i = 1 ∨ i = 2 ∨ i = 3 := by omega
  rcases hi with h | h | h <;> subst h <;> exact ⟨rfl, rfl⟩

/-! ## Touch polls -/

/-- C4: a poll that detects a touch sets `time = now` and `active = true` and
keeps `duration`, whatever the prior timer; a poll without touch returns the
timer unchanged; and after any sequence of polls that ends with a touch at
`now` the timer is the prior one with `time = now` and `active = true`, so
only the last touch counts, and no display call is made. -/
theorem my_touchpad_read_records_activity (s : ChronosTimer) (x y now : Nat)
    (data : lv_indev_data_t) :
    (my_touchpad_read ⟨true, x, y⟩ now data s).2 = ⟨now, s.duration, true⟩ ∧
    (my_touchpad_read ⟨false, x, y⟩ now data s).2 = s ∧
    (∀ polls : List (TouchSample × Nat × lv_indev_data_t),
      run s (polls.map (fun p => Event.poll p.1 p.2.1 p.2.2) ++
          [Event.poll ⟨true, x, y⟩ now data]) =
        (⟨now, s.duration, true⟩, [])) := by
  refine ⟨my_touchpad_read_touched x y now data s,
    my_touchpad_read_released x y now data s, ?_⟩
  intro polls
  induction polls generalizing s with
  | nil =>
    simp only [List.map_nil, List.nil_append, run, step, my_touchpad_read_touched,
      List.append_nil]
  | cons p ps ih =>
    have hd := my_touchpad_read_duration p.1 p.2.1 p.2.2 s
    simp only [List.map_cons, List.cons_append, run_cons, step, List.nil_append]
    rw [ih, hd]

/-! ## Always-on mode -/

/-- C5: with `duration < 0` (as after `setTimeout(4)`) a pass through the
timer block either does nothing or clears `active` after one call that
re-applies the slider brightness; and over any sequence of ticks and touch
polls `duration` stays as it is, the home screen is never loaded, and every
display call is the slider brightness of one of the ticks: the expiry branch
(brightness 0 followed by the home screen) is never taken. -/
theorem always_on_never_expires (s : ChronosTimer) (hneg : s.duration < 0) :
    (∀ (slider : Int) (now : Nat),
      hal_loop slider now s = (s, []) ∨
      hal_loop slider now s =
        ({ s with active := false }, [HalCall.screenBrightness (toUInt8 slider)])) ∧
    (∀ es : List Event, (∀ e ∈ es, e.isTimeoutChange = false) →
      (run s es).1.duration = s.duration ∧
      HalCall.lv_screen_load_ui_home ∉ (run s es).2 ∧
      ∀ c ∈ (run s es).2, ∃ slider now,
        Event.tick slider now ∈ es ∧ c = HalCall.screenBrightness (toUInt8 slider)) ∧
    (∀ s0 : ChronosTimer, (setTimeout 4 s0).duration < 0) := by
  have tickCases : ∀ (s : ChronosTimer), s.duration < 0 → ∀ (slider : Int) (now : Nat),
      hal_loop slider now s = (s, []) ∨
      hal_loop slider now s =
        ({ s with active := false }, [HalCall.screenBrightness (toUInt8 slider)]) := by
    intro s hneg slider now
    cases hact : s.active with
    | false => exact Or.inl (hal_loop_inactive s slider now hact)
    | true => exact Or.inr (hal_loop_negative s slider now hact hneg)
  refine ⟨tickCases s hneg, ?_, fun s0 => by simp [setTimeout]⟩
  intro es
  induction es generalizing s with
  | nil =>
    intro _
    simp [run]
  | cons e es ih =>
    intro hes
    have hes2 : ∀ e2 ∈ es, e2.isTimeoutChange = false :=
      fun e2 h2 => hes e2 (List.mem_cons_of_mem _ h2)
    have he : e.isTimeoutChange = false := hes e (List.mem_cons_self _ _)
    have hstep : (step s e).1.duration = s.duration ∧
        ((step s e).2 = [] ∨ ∃ slider now, e = Event.tick slider now ∧
          (step s e).2 = [HalCall.screenBrightness (toUInt8 slider)]) := by
      cases e with
      | tick slider now =>
        refine ⟨hal_loop_duration s slider now, ?_⟩
        rcases tickCases s hneg slider now with h | h
        · left; simp [step, h]
        · right; exact ⟨slider, now, rfl, by simp [step, h]⟩
      | poll touch now data =>
        exact ⟨my_touchpad_read_duration touch now data s, Or.inl rfl⟩
      | timeoutChange selected => simp [Event.isTimeoutChange] at he
    have hneg2 : (step s e).1.duration < 0 := by rw [hstep.1]; exact hneg
    obtain ⟨ihd, ihl, ihc⟩ := ih (step s e).1 hneg2 hes2
    rw [run_cons]
    refine ⟨by simp only []; rw [ihd, hstep.1], ?_, ?_⟩
    · simp only [List.mem_append, not_or]
      refine ⟨?_, ihl⟩
      rcases hstep.2 with h | ⟨slider, now, _, h⟩ <;> rw [h] <;> simp
    · intro c hc
      simp only [List.mem_append] at hc
      rcases hc with hc | hc
      · rcases hstep.2 with h | ⟨slider, now, hev, h⟩
        · rw [h] at hc; simp at hc
        · rw [h] at hc
          simp only [List.mem_singleton] at hc
          exact ⟨slider, now, by rw [hev]; exact List.mem_cons_self _ _, hc⟩
      · obtain ⟨slider, now, hm, hceq⟩ := ihc c hc
        exact ⟨slider, now, List.mem_cons_of_mem _ hm, hceq⟩

/-- Witness for C5: always-on timer reached by `setTimeout(4)`, then a tick
long after the last touch, a touch, and another tick. -/
theorem always_on_never_expires_witness :
    (setTimeout 4 ⟨0, 5000, true⟩).duration < 0 ∧
    HalCall.lv_screen_load_ui_home ∉
      (run (setTimeout 4 ⟨0, 5000, true⟩)
        [Event.tick 200 4000000000,
         Event.poll ⟨true, 120, 120⟩ 4000000001 ⟨lv_indev_state_t.LV_INDEV_STATE_RELEASED, 0, 0⟩,
         Event.tick 200 4100000000]).2 :=
  ⟨by decide,
   ((always_on_never_expires (setTimeout 4 ⟨0, 5000, true⟩) (by decide)).2.1
      [Event.tick 200 4000000000,
       Event.poll ⟨true, 120, 120⟩ 4000000001 ⟨lv_indev_state_t.LV_INDEV_STATE_RELEASED, 0, 0⟩,
       Event.tick 200 4100000000]
      (by simp [Event.isTimeoutChange])).2.1⟩

/-- C6, as stated, fails: on the active always-on timer
`time = 0, duration = -1`, with the slider at 200, the tick at 1000 makes a
brightness call and clears `active`, so it is not a tick without calls that
leaves `active` true. -/
theorem always_on_tick_counterexample :
    hal_loop 200 1000 ⟨0, -1, true⟩ = (⟨0, -1, false⟩, [HalCall.screenBrightness 200]) ∧
    ¬ ((hal_loop 200 1000 ⟨0, -1, true⟩).2 = [] ∧
       (hal_loop 200 1000 ⟨0, -1, true⟩).1.active = true) := by
  decide

/-- C6 (amended): for an active timer with `duration < 0`, at every clock value
the tick makes exactly one call, the re-application of the slider brightness
(`screenBrightness(lvl)` with `lvl` the slider value as `uint8_t`), and no call
other than that, so the home screen is not loaded; it clears `active` and
leaves `time` and `duration` as they are. -/
theorem always_on_tick (s : ChronosTimer) (slider : Int) (now : Nat)
    (hact : s.active = true) (hneg : s.duration < 0) :
    hal_loop slider now s =
      (⟨s.time, s.duration, false⟩, [HalCall.screenBrightness (toUInt8 slider)]) ∧
    (∀ c ∈ (hal_loop slider now s).2, c = HalCall.screenBrightness (toUInt8 slider)) ∧
    HalCall.lv_screen_load_ui_home ∉ (hal_loop slider now s).2 := by
  have hres := hal_loop_negative s slider now hact hneg
  refine ⟨hres, ?_, ?_⟩
  · intro c hc
    rw [hres] at hc
    simpa using hc
  · rw [hres]
    simp

/-- Witness for C6 (amended) on the timer left by `setTimeout(4)`. -/
theorem always_on_tick_witness :
    hal_loop 200 1000 ⟨0, -1, true⟩ =
      (⟨0, -1, false⟩, [HalCall.screenBrightness (toUInt8 200)]) :=
  (always_on_tick ⟨0, -1, true⟩ 200 1000 rfl (by decide)).1

/-! ## Levels outside 0..4 -/

/-- C7, as stated, fails at a negative level: `setTimeout(-1)` on the timer
`time = 0, duration = 5000, active = false` takes the `i < 4` branch and
stores `duration = -10000` and `active = true`, so `duration` and `active`
both change. -/
theorem setTimeout_negative_level_counterexample :
    setTimeout (-1) screenTimer = ⟨0, -10000, true⟩ ∧
    (setTimeout (-1) screenTimer).duration ≠ screenTimer.duration ∧
    (setTimeout (-1) screenTimer).active ≠ screenTimer.active ∧
    setTimeout (-1) screenTimer ≠ screenTimer := by
  decide

/-- C7 (amended): for every integer level `i > 4` and every prior timer,
`setTimeout(i)` returns the timer unchanged: `time`, `duration` and `active`
all keep their values. -/
theorem setTimeout_above_range (i : Int) (s : ChronosTimer) (hi : 4 < i) :
    setTimeout i s = s ∧
    (setTimeout i s).time = s.time ∧ (setTimeout i s).duration = s.duration ∧
    (setTimeout i s).active = s.active := by
  have h4 : ¬ i = 4 := by omega
  have h0 : ¬ i = 0 := by omega
  have hlt : ¬ i < 4 := by omega
  have hres : setTimeout i s = s := by
    simp only [setTimeout, h4, h0, hlt, if_false]
  rw [hres]
  exact ⟨rfl, rfl, rfl, rfl⟩

/-- Witness for C7 (amended): level 5 on an expired 20-second timer. -/
theorem setTimeout_above_range_witness :
    setTimeout 5 ⟨1000, 20000, false⟩ = ⟨1000, 20000, false⟩ :=
  (setTimeout_above_range 5 ⟨1000, 20000, false⟩ (by decide)).1

/-! ## Activity resets the deadline -/

/-- C8: from an active timer with `time = t0` and `duration = D >= 2`, with
the pushed deadline `t0 + D - 1 + D` within 32 bits, a touch at `t0 + D - 1`
followed by a tick at `t0 + D + 1` does not expire: the tick only re-applies
the slider brightness, `active` stays true, and the deadline the tick
compares against is `t0 + D - 1 + D`. -/
theorem activity_resets_deadline (t0 D x y : Nat) (data : lv_indev_data_t) (slider : Int)
    (hD : 2 ≤ D) (hfit : t0 + D - 1 + D < 4294967296) :
    (my_touchpad_read ⟨true, x, y⟩ (t0 + D - 1) data ⟨t0, (D : Int), true⟩).2 =
      ⟨t0 + D - 1, (D : Int), true⟩ ∧
    hal_loop slider (t0 + D + 1) ⟨t0 + D - 1, (D : Int), true⟩ =
      (⟨t0 + D - 1, (D : Int), true⟩, [HalCall.screenBrightness (toUInt8 slider)]) ∧
    toULong (((t0 + D - 1 : Nat) : Int) + (D : Int)) = t0 + D - 1 + D ∧
    run ⟨t0, (D : Int), true⟩
        [Event.poll ⟨true, x, y⟩ (t0 + D - 1) data, Event.tick slider (t0 + D + 1)] =
      (⟨t0 + D - 1, (D : Int), true⟩, [HalCall.screenBrightness (toUInt8 slider)]) := by
  have h0 : (my_touchpad_read ⟨true, x, y⟩ (t0 + D - 1) data ⟨t0, (D : Int), true⟩).2 =
      ⟨t0 + D - 1, (D : Int), true⟩ := my_touchpad_read_touched x y _ data _
  have h1 : hal_loop slider (t0 + D + 1) ⟨t0 + D - 1, (D : Int), true⟩ =
      (⟨t0 + D - 1, (D : Int), true⟩, [HalCall.screenBrightness (toUInt8 slider)]) :=
    hal_loop_keep ⟨t0 + D - 1, (D : Int), true⟩ slider (t0 + D + 1) rfl
      (by show (0 : Int) ≤ (D : Int); omega)
      (by show ((t0 + D - 1 : Nat) : Int) + (D : Int) < 4294967296; omega)
      (by show ¬ (((t0 + D - 1 : Nat) : Int) + (D : Int) < ((t0 + D + 1 : Nat) : Int)); omega)
  refine ⟨h0, h1, ?_, ?_⟩
  · rw [toULong_of_range _ (by omega) (by omega)]
    omega
  · simp only [run, step, h0, h1, List.append_nil, List.nil_append]

/-- Witness for C8 with the default timeout: `t0 = 0`, `D = 5000`. -/
theorem activity_resets_deadline_witness :
    hal_loop 200 (0 + 5000 + 1) ⟨0 + 5000 - 1, ((5000 : Nat) : Int), true⟩ =
      (⟨0 + 5000 - 1, ((5000 : Nat) : Int), true⟩, [HalCall.screenBrightness (toUInt8 200)]) :=
  (activity_resets_deadline 0 5000 120 120 ⟨lv_indev_state_t.LV_INDEV_STATE_RELEASED, 0, 0⟩
    200 (by decide) (by decide)).2.1

/-! ## Inactive timer -/

/-- C9: on a timer with `active = false` the timer block makes no call and
returns the timer unchanged, at every clock value; so over any number of
ticks the timer stays exactly as it was (`active` still false) and no call is
made. -/
theorem inactive_tick (s : ChronosTimer) (hact : s.active = false) :
    (∀ (slider : Int) (now : Nat), hal_loop slider now s = (s, [])) ∧
    (∀ ticks : List (Int × Nat),
      run s (ticks.map (fun p => Event.tick p.1 p.2)) = (s, [])) := by
  refine ⟨fun slider now => hal_loop_inactive s slider now hact, ?_⟩
  intro ticks
  induction ticks with
  | nil => rfl
  | cons p ps ih =>
    simp only [List.map_cons, run_cons, step, hal_loop_inactive s p.1 p.2 hact, ih,
      List.append_nil]

/-- Witness for C9 on the timer left by an expiry. -/
theorem inactive_tick_witness :
    hal_loop 200 6000 ⟨0, 5000, false⟩ = (⟨0, 5000, false⟩, []) :=
  (inactive_tick ⟨0, 5000, false⟩ rfl).1 200 6000

/-! ## Start-up scenario -/

/-- C10: `hal_setup` at clock 0 leaves `time = 0`, `duration = 5000`,
`active = true` whatever the timer held before; from there, without touches,
the tick at 4999 only re-applies the slider brightness, the tick at 5001
expires (slider brightness, brightness 0, home screen, `active` cleared), and
the tick at 6000 makes no call. -/
theorem startup_scenario (prior : ChronosTimer) (l1 l2 l3 : Int) :
    hal_setup 0 prior = ⟨0, 5000, true⟩ ∧
    hal_loop l1 4999 (hal_setup 0 prior) =
      (⟨0, 5000, true⟩, [HalCall.screenBrightness (toUInt8 l1)]) ∧
    hal_loop l2 5001 (hal_loop l1 4999 (hal_setup 0 prior)).1 =
      (⟨0, 5000, false⟩,
       [HalCall.screenBrightness (toUInt8 l2), HalCall.screenBrightness 0,
        HalCall.lv_screen_load_ui_home]) ∧
    hal_loop l3 6000 (hal_loop l2 5001 (hal_loop l1 4999 (hal_setup 0 prior)).1).1 =
      (⟨0, 5000, false⟩, []) := by
  have hs : hal_setup 0 prior = ⟨0, 5000, true⟩ := rfl
  have h1 : hal_loop l1 4999 ⟨0, 5000, true⟩ =
      (⟨0, 5000, true⟩, [HalCall.screenBrightness (toUInt8 l1)]) :=
    hal_loop_keep ⟨0, 5000, true⟩ l1 4999 rfl (by decide) (by decide) (by decide)
  have h2 : hal_loop l2 5001 ⟨0, 5000, true⟩ =
      (⟨0, 5000, false⟩,
       [HalCall.screenBrightness (toUInt8 l2), HalCall.screenBrightness 0,
        HalCall.lv_screen_load_ui_home]) :=
    hal_loop_expire ⟨0, 5000, true⟩ l2 5001 rfl (by decide) (by decide) (by decide)
  have h3 : hal_loop l3 6000 ⟨0, 5000, false⟩ = (⟨0, 5000, false⟩, []) :=
    hal_loop_inactive _ l3 6000 rfl
  rw [hs, h1, h2]
  exact ⟨rfl, rfl, rfl, h3⟩

/-! ## `setTimeout(0)` and the countdown -/

theorem setTimeout_zero_eq (s : ChronosTimer) :
    setTimeout 0 s = ⟨s.time, 5000, true⟩ := rfl

/-- C11, as stated, fails: the timer `time = 0, duration = 5000` has expired
(`active = false`); `setTimeout(0)` is called at clock 100000 and the very
next tick, at 100000, expires the display again, well within 5000 ms of the
call. -/
theorem setTimeout_zero_restart_counterexample :
    setTimeout 0 ⟨0, 5000, false⟩ = ⟨0, 5000, true⟩ ∧
    (100000 ≤ 100000 ∧ 100000 ≤ 100000 + 5000) ∧
    hal_loop 200 100000 (setTimeout 0 ⟨0, 5000, false⟩) =
      (⟨0, 5000, false⟩,
       [HalCall.screenBrightness 200, HalCall.screenBrightness 0,
        HalCall.lv_screen_load_ui_home]) := by
  decide

/-- C11 (amended): `setTimeout(0)` sets `duration = 5000` and `active = true`
and keeps the stored `time`, so the countdown runs from the stored `time`,
not from the call.  With `time + 5000` within 32 bits and no other events, no
tick at `t <= time + 5000` expires (each such tick only re-applies the slider
brightness and leaves the timer as it is, over any number of such ticks), and
a tick at `t > time + 5000` expires. -/
theorem setTimeout_zero_deadline (s : ChronosTimer) (hfit : s.time + 5000 < 4294967296) :
    setTimeout 0 s = ⟨s.time, 5000, true⟩ ∧
    (∀ (slider : Int) (t : Nat), t ≤ s.time + 5000 →
      hal_loop slider t (setTimeout 0 s) =
        (setTimeout 0 s, [HalCall.screenBrightness (toUInt8 slider)])) ∧
    (∀ ticks : List (Int × Nat), (∀ p ∈ ticks, p.2 ≤ s.time + 5000) →
      run (setTimeout 0 s) (ticks.map (fun p => Event.tick p.1 p.2)) =
        (setTimeout 0 s, ticks.map (fun p => HalCall.screenBrightness (toUInt8 p.1)))) ∧
    (∀ (slider : Int) (t : Nat), s.time + 5000 < t →
      hal_loop slider t (setTimeout 0 s) =
        (⟨s.time, 5000, false⟩,
         [HalCall.screenBrightness (toUInt8 slider), HalCall.screenBrightness 0,
          HalCall.lv_screen_load_ui_home])) := by
  have hkeep : ∀ (slider : Int) (t : Nat), t ≤ s.time + 5000 →
      hal_loop slider t (setTimeout 0 s) =
        (setTimeout 0 s, [HalCall.screenBrightness (toUInt8 slider)]) := by
    intro slider t ht
    rw [setTimeout_zero_eq]
    exact hal_loop_keep ⟨s.time, 5000, true⟩ slider t rfl
      (by show (0 : Int) ≤ 5000; decide)
      (by show (s.time : Int) + 5000 < 4294967296; omega)
      (by show ¬ ((s.time : Int) + 5000 < (t : Int)); omega)
  refine ⟨rfl, hkeep, ?_, ?_⟩
  · intro ticks
    induction ticks with
    | nil => intro _; rfl
    | cons p ps ih =>
      intro hall
      have hp : p.2 ≤ s.time + 5000 := hall p (List.mem_cons_self _ _)
      have hps : ∀ q ∈ ps, q.2 ≤ s.time + 5000 :=
        fun q hq => hall q (List.mem_cons_of_mem _ hq)
      simp only [List.map_cons, run_cons, step, hkeep p.1 p.2 hp, ih hps,
        List.singleton_append]
  · intro slider t ht
    rw [setTimeout_zero_eq]
    exact hal_loop_expire ⟨s.time, 5000, true⟩ slider t rfl
      (by show (0 : Int) ≤ 5000; decide)
      (by show (s.time : Int) + 5000 < 4294967296; omega)
      (by show (s.time : Int) + 5000 < (t : Int); omega)

/-- Witness for C11 (amended): the call follows a touch at 100000, so the
stored `time` is 100000 and the tick at 105000 keeps the display on. -/
theorem setTimeout_zero_deadline_witness :
    hal_loop 200 105000 (setTimeout 0 ⟨100000, 30000, false⟩) =
      (setTimeout 0 ⟨100000, 30000, false⟩, [HalCall.screenBrightness (toUInt8 200)]) :=
  (setTimeout_zero_deadline ⟨100000, 30000, false⟩ (by decide)).2.1 200 105000 (by decide)

/-! ## Frame of `setTimeout` -/

/-- C12: for every level `i` and every prior timer, `setTimeout(i)` leaves
`time` as it is, and the settings event that calls it makes no display call
(no brightness command, no screen load); for `i = 4` it also leaves `active`
as it is, so only `duration` changes (to `-1`). -/
theorem setTimeout_frame (i : Int) (s : ChronosTimer) :
    (setTimeout i s).time = s.time ∧
    (∀ selected : Nat, (step s (Event.timeoutChange selected)).2 = [] ∧
      (step s (Event.timeoutChange selected)).1.time = s.time) ∧
    setTimeout 4 s = ⟨s.time, -1, s.active⟩ := by
  have htime : ∀ j : Int, (setTimeout j s).time = s.time := by
    intro j
    unfold setTimeout
    split
    · rfl
    · split
      · rfl
      · split <;> rfl
  exact ⟨htime i, fun selected => ⟨rfl, htime _⟩, rfl⟩

/-! ## Wraparound of the absolute comparison -/

/-- C13: the sum `time + duration` is reduced modulo `2^32` before it is
compared with `millis()`.  On the active timer `time = 2^32 - 1000`,
`duration = 5000` the reduced deadline is 4000, so the tick at
`now = 2^32 - 500`, only 500 ms after `time`, expires; the subtraction-based
test `(now - time) mod 2^32 > duration` is false there, so the two tests
differ. -/
theorem absolute_comparison_wraps (slider : Int) :
    toULong (((4294966296 : Nat) : Int) + 5000) = 4000 ∧
    hal_loop slider 4294966796 ⟨4294966296, 5000, true⟩ =
      (⟨4294966296, 5000, false⟩,
       [HalCall.screenBrightness (toUInt8 slider), HalCall.screenBrightness 0,
        HalCall.lv_screen_load_ui_home]) ∧
    subtractionExpired 4294966796 ⟨4294966296, 5000, true⟩ = false ∧
    (∃ (s : ChronosTimer) (now : Nat),
      s.active = true ∧ s.time < 4294967296 ∧ now < 4294967296 ∧ s.time ≤ now ∧
      ((now - s.time : Nat) : Int) < s.duration ∧
      (hal_loop slider now s).1.active = false ∧
      HalCall.lv_screen_load_ui_home ∈ (hal_loop slider now s).2 ∧
      subtractionExpired now s = false) := by
  have hsum : toULong (((4294966296 : Nat) : Int) + 5000) = 4000 := by decide
  have hloop : hal_loop slider 4294966796 ⟨4294966296, 5000, true⟩ =
      (⟨4294966296, 5000, false⟩,
       [HalCall.screenBrightness (toUInt8 slider), HalCall.screenBrightness 0,
        HalCall.lv_screen_load_ui_home]) := by
    have hnneg : ¬ ((5000 : Int) < 0) := by decide
    have hlt : toULong 4294971296 < 4294966796 := by decide
    simp [hal_loop, hnneg, hlt]
  have hsub : subtractionExpired 4294966796 ⟨4294966296, 5000, true⟩ = false := by decide
  refine ⟨hsum, hloop, hsub, ⟨4294966296, 5000, true⟩, 4294966796, rfl, by decide, by decide,
    by decide, by decide, ?_, ?_, hsub⟩
  · rw [hloop]
  · rw [hloop]; simp

/-! ## Reachable durations -/

theorem setTimeout_nat_duration (n : Nat) (s : ChronosTimer)
    (h : s.duration = 5000 ∨ s.duration = 10000 ∨ s.duration = 20000 ∨
      s.duration = 30000 ∨ s.duration = -1) :
    (setTimeout (n : Int) s).duration = 5000 ∨ (setTimeout (n : Int) s).duration = 10000 ∨
    (setTimeout (n : Int) s).duration = 20000 ∨ (setTimeout (n : Int) s).duration = 30000 ∨
    (setTimeout (n : Int) s).duration = -1 := by
  by_cases h4 : n = 4
  · subst h4
    right; right; right; right; rfl
  · by_cases h0 : n = 0
    · subst h0
      left; rfl
    · by_cases hlt : n < 4
      · have hn : n = 1 ∨ n = 2 ∨ n = 3 := by omega
        rcases hn with hn | hn | hn <;> subst hn
        · right; left; rfl
        · right; right; left; rfl
        · right; right; right; left; rfl
      · have e4 : ¬ ((n : Int) = 4) := by omega
        have e0 : ¬ ((n : Int) = 0) := by omega
        have elt : ¬ ((n : Int) < 4) := by omega
        simp only [setTimeout, e4, e0, elt, if_false]
        exact h

theorem step_duration_levels (s : ChronosTimer) (e : Event)
    (h : s.duration = 5000 ∨ s.duration = 10000 ∨ s.duration = 20000 ∨
      s.duration = 30000 ∨ s.duration = -1) :
    (step s e).1.duration = 5000 ∨ (step s e).1.duration = 10000 ∨
    (step s e).1.duration = 20000 ∨ (step s e).1.duration = 30000 ∨
    (step s e).1.duration = -1 := by
  cases e with
  | tick slider now =>
    have hd : (step s (Event.tick slider now)).1.duration = s.duration :=
      hal_loop_duration s slider now
    rw [hd]; exact h
  | poll touch now data =>
    have hd : (step s (Event.poll touch now data)).1.duration = s.duration :=
      my_touchpad_read_duration touch now data s
    rw [hd]; exact h
  | timeoutChange selected =>
    exact setTimeout_nat_duration (selected % 65536) s h

theorem run_duration_levels (es : List Event) (s : ChronosTimer)
    (h : s.duration = 5000 ∨ s.duration = 10000 ∨ s.duration = 20000 ∨
      s.duration = 30000 ∨ s.duration = -1) :
    (run s es).1.duration = 5000 ∨ (run s es).1.duration = 10000 ∨
    (run s es).1.duration = 20000 ∨ (run s es).1.duration = 30000 ∨
    (run s es).1.duration = -1 := by
  induction es generalizing s with
  | nil => exact h
  | cons e es ih =>
    rw [run_cons]
    exact ih (step s e).1 (step_duration_levels s e h)

/-- C14: in every timer reached from start-up (`hal_setup` at any clock value,
from any prior content of `screenTimer`) by a finite sequence of touch polls,
`hal_loop` ticks and `onTimeoutChange` events, whose selection is cut to 16
bits, `duration` is one of 5000, 10000, 20000, 30000 or -1. -/
theorem reachable_durations (now : Nat) (prior : ChronosTimer) (es : List Event) :
    (run (hal_setup now prior) es).1.duration = 5000 ∨
    (run (hal_setup now prior) es).1.duration = 10000 ∨
    (run (hal_setup now prior) es).1.duration = 20000 ∨
    (run (hal_setup now prior) es).1.duration = 30000 ∨
    (run (hal_setup now prior) es).1.duration = -1 :=
  run_duration_levels es (hal_setup now prior) (Or.inl rfl)

/-! ## Undefined levels on the settings path -/

/-- C15: for every dropdown selection `sel` in the `uint16_t` range with
`sel > 4`, `onTimeoutChange` returns the timer unchanged: `time`, `duration`
and `active` all keep their values. -/
theorem onTimeoutChange_undefined_level (sel : Nat) (s : ChronosTimer)
    (h4 : 4 < sel) (h16 : sel < 65536) :
    onTimeoutChange sel s = s := by
  have hmod : sel % 65536 = sel := Nat.mod_eq_of_lt h16
  have e4 : ¬ ((sel : Int) = 4) := by omega
  have e0 : ¬ ((sel : Int) = 0) := by omega
  have elt : ¬ ((sel : Int) < 4) := by omega
  simp only [onTimeoutChange, hmod, setTimeout, e4, e0, elt, if_false]

/-- Witness for C15: selection 5, the first value past the five dropdown
entries, on a 20-second timer. -/
theorem onTimeoutChange_undefined_level_witness :
    onTimeoutChange 5 ⟨1000, 20000, true⟩ = ⟨1000, 20000, true⟩ :=
  onTimeoutChange_undefined_level 5 ⟨1000, 20000, true⟩ (by decide) (by decide)

/-! ## Notification lookup -/

theorem notificationAt_ofNat (k : Nat) : notificationAt (k : Int) = notifications[k]? := by
  simp [notificationAt]

theorem notifications_length : notifications.length = 10 := rfl

/-- C16: for every non-negative user-data index, the index reduced by
`index %= 10` lies in `0 .. 9` and equals `index mod 10`, so the subscript into
the 10-entry table is in bounds and `onMessageClick` shows the time, message
and icon of entry `index mod 10`; and every `i` in `0 .. 9` is registered by
`setupNotifications` with the icon and message of `notifications[i]`, and a
click carrying `i` shows that same entry. -/
theorem onMessageClick_in_bounds (index : Int) (h : 0 ≤ index) :
    0 ≤ Int.tmod index 10 ∧ Int.tmod index 10 ≤ 9 ∧ Int.tmod index 10 = index % 10 ∧
    (∃ n : Notification,
      notifications[(index % 10).toNat]? = some n ∧
      notificationAt (Int.tmod index 10) = some n ∧
      onMessageClick index =
        some [UiCall.lv_label_set_text UiObj.ui_messageTime n.time,
              UiCall.lv_label_set_text UiObj.ui_messageContent n.message,
              UiCall.setNotificationIcon UiObj.ui_messageIcon n.icon,
              UiCall.lv_obj_scroll_to_y UiObj.ui_messagePanel 0,
              UiCall.lv_obj_add_flag UiObj.ui_messageList,
              UiCall.lv_obj_remove_flag UiObj.ui_messagePanel]) ∧
    (∀ i : Nat, i < 10 → ∃ (n : Notification) (calls : List UiCall),
      notifications[i]? = some n ∧
      setupNotifications = some calls ∧
      UiCall.addNotificationList n.icon n.message (i : Int) ∈ calls ∧
      onMessageClick (i : Int) =
        some [UiCall.lv_label_set_text UiObj.ui_messageTime n.time,
              UiCall.lv_label_set_text UiObj.ui_messageContent n.message,
              UiCall.setNotificationIcon UiObj.ui_messageIcon n.icon,
              UiCall.lv_obj_scroll_to_y UiObj.ui_messagePanel 0,
              UiCall.lv_obj_add_flag UiObj.ui_messageList,
              UiCall.lv_obj_remove_flag UiObj.ui_messagePanel]) := by
  have hmod : Int.tmod index 10 = index % 10 := Int.tmod_eq_emod h (by decide)
  have hlo : 0 ≤ index % 10 := by omega
  have hhi : index % 10 ≤ 9 := by omega
  have hshow : ∀ k : Nat, k < 10 → ∃ n : Notification,
      notifications[k]? = some n ∧ notificationAt (k : Int) = some n := by
    intro k hk
    have hlen : k < notifications.length := by rw [notifications_length]; exact hk
    refine ⟨notifications[k], List.getElem?_eq_getElem hlen, ?_⟩
    rw [notificationAt_ofNat]
    exact List.getElem?_eq_getElem hlen
  have hclick : ∀ (x : Int) (k : Nat) (n : Notification), Int.tmod x 10 = (k : Int) →
      notificationAt (k : Int) = some n →
      onMessageClick x =
        some [UiCall.lv_label_set_text UiObj.ui_messageTime n.time,
              UiCall.lv_label_set_text UiObj.ui_messageContent n.message,
              UiCall.setNotificationIcon UiObj.ui_messageIcon n.icon,
              UiCall.lv_obj_scroll_to_y UiObj.ui_messagePanel 0,
              UiCall.lv_obj_add_flag UiObj.ui_messageList,
              UiCall.lv_obj_remove_flag UiObj.ui_messagePanel] := by
    intro x k n hx hn
    simp only [onMessageClick, hx, hn]
  refine ⟨by omega, by omega, hmod, ?_, ?_⟩
  · have hk : (index % 10).toNat < 10 := by omega
    have hcast : (((index % 10).toNat : Nat) : Int) = index % 10 := by omega
    obtain ⟨n, hn1, hn2⟩ := hshow (index % 10).toNat hk
    refine ⟨n, hn1, ?_, ?_⟩
    · rw [hmod, ← hcast]; exact hn2
    · exact hclick index (index % 10).toNat n (by rw [hmod, hcast]) hn2
  · intro i hi
    obtain ⟨n, hn1, hn2⟩ := hshow i hi
    have hti : Int.tmod (i : Int) 10 = (i : Int) := by
      rw [Int.tmod_eq_emod (by omega) (by decide)]; omega
    have hreg : ∃ calls : List UiCall, setupNotifications = some calls ∧
        ∀ j : Nat, j < 10 → ∀ m : Notification, notifications[j]? = some m →
          UiCall.addNotificationList m.icon m.message (j : Int) ∈ calls := by
      refine ⟨_, rfl, ?_⟩
      intro j hj m hm
      interval_cases j <;> simp [notifications] at hm <;> subst hm <;> simp [notifications]
    obtain ⟨calls, hc1, hc2⟩ := hreg
    exact ⟨n, calls, hn1, hc1, hc2 i hi n hn1, hclick (i : Int) i n hti hn2⟩

/-- Witness for C16: a click whose user data is 27 shows entry 7, the Wechat
notification of 22:15. -/
theorem onMessageClick_in_bounds_witness :
    Int.tmod 27 10 = 27 % 10 ∧
    (∃ n : Notification, notifications[((27 : Int) % 10).toNat]? = some n ∧
      notificationAt (Int.tmod 27 10) = some n ∧
      onMessageClick 27 =
        some [UiCall.lv_label_set_text UiObj.ui_messageTime n.time,
              UiCall.lv_label_set_text UiObj.ui_messageContent n.message,
              UiCall.setNotificationIcon UiObj.ui_messageIcon n.icon,
              UiCall.lv_obj_scroll_to_y UiObj.ui_messagePanel 0,
              UiCall.lv_obj_add_flag UiObj.ui_messageList,
              UiCall.lv_obj_remove_flag UiObj.ui_messagePanel]) :=
  have h := onMessageClick_in_bounds 27 (by decide)
  ⟨h.2.2.1, h.2.2.2.1⟩

end ChronosWatch
